import Mathlib

/-!
Verification of the wangle server-framework core: the Broadcast Pool
state machine (spec §4.4–§4.5) and the `ServerAcceptor`/`ServerConnection`
accept path (`wangle/bootstrap/ServerBootstrap-inl.h`).

The Broadcast Pool implementation lives outside the provided sources (only
its test suite is present), so its state machine is modelled from the
specification text; the accept-path definitions are shallow embeddings of
the C++ in `ServerBootstrap-inl.h`.
-/

namespace Broadcast

/-- Identity of one thread-local pool instance: the pair of the owning
`ObservingPipelineFactory` instance and the I/O thread (spec §4.5:
"Thread-local singleton per (ObservingPipelineFactory instance × I/O
thread)"). -/
structure PoolKey where
  factoryId : Nat
  threadId : Nat
deriving DecidableEq

/-- A broadcast-handler pointer.  A handler is allocated by one pool, so its
identity is the allocating pool's key paired with a per-pool counter. -/
abbrev HandlerId := PoolKey × Nat

/-- Modelled from the spec: a Broadcast entry for one routing key is
*Connecting* (connect future pending, queued waiters list, FIFO) or *Ready*
(live upstream handler plus its current subscriber count); *Absent* is the
missing entry (spec §3 "Broadcast entry"). -/
inductive Entry where
  | connecting (waiters : List Nat)
  | ready (h : HandlerId) (subscriberCount : Nat)
deriving DecidableEq

/-- Modelled from the spec: one thread-local Broadcast Pool, a mapping from
routing key to entry, with the owner identity and a fresh-handler counter
(spec §4.5 "The pool stores a mapping K → Entry"). -/
structure Pool (K : Type) where
  owner : PoolKey
  entries : K → Option Entry
  nextId : Nat

variable {K : Type} [DecidableEq K]

/-- A freshly created pool: no entries. -/
def mkPool (pk : PoolKey) : Pool K :=
  { owner := pk, entries := fun _ => none, nextId := 0 }

/-- Replace the entry stored for key `k`. -/
def setEntry (p : Pool K) (k : K) (e : Option Entry) : Pool K :=
  { p with entries := fun k' => if k' = k then e else p.entries k' }

/-- Remove the entry for key `k` (transition to Absent). -/
def removeEntry (p : Pool K) (k : K) : Pool K :=
  setEntry p k none

/-- Modelled from the spec: `isBroadcasting(K)` is true iff an entry exists
in Connecting or Ready (spec §4.5). -/
def isBroadcasting (p : Pool K) (k : K) : Bool :=
  (p.entries k).isSome

/-- What `getHandler` did for the caller: the promise was queued on a
Connecting entry, completed with the cached handler of a Ready entry, or
completed inline with the Server Pool's synchronous error. -/
inductive GetResult where
  | queued
  | immediate (h : HandlerId)
  | inlineError
deriving DecidableEq

/-- Modelled from the spec: `getHandler(K)` (spec §4.5, steps 1–4).  On
Absent it starts a connect and inserts a Connecting entry holding the
caller's promise; if the Server Pool fails synchronously (`syncFail`), the
just-inserted entry is removed and the caller's promise is completed with
the error inline.  On Connecting the promise is appended to the waiters
list.  On Ready the promise is completed with the cached handler. -/
def getHandler (syncFail : Bool) (p : Pool K) (k : K) (w : Nat) :
    Pool K × GetResult :=
  match p.entries k with
  | some (.connecting ws) =>
      (setEntry p k (some (.connecting (ws ++ [w]))), .queued)
  | some (.ready h _) => (p, .immediate h)
  | none =>
      if syncFail then
        (removeEntry (setEntry p k (some (.connecting [w]))) k, .inlineError)
      else
        (setEntry p k (some (.connecting [w])), .queued)

/-- Outcome of the asynchronous connect attempt: the socket connect failed,
or it succeeded and `setRoutingData` either threw or returned normally. -/
inductive ConnectOutcome where
  | failed
  | succeeded (routingThrows : Bool)
deriving DecidableEq

/-- How one waiter's future was resolved. -/
inductive WaiterResult where
  | fulfilled (h : HandlerId)
  | errored
deriving DecidableEq

/-- One waiter-callback invocation: which waiter ran, with which result,
and what `isBroadcasting(K)` reported at the moment the callback ran. -/
structure CallbackRecord where
  waiter : Nat
  result : WaiterResult
  broadcastingAtCallback : Bool
deriving DecidableEq

/-- Modelled from the spec: the connect-completion callback (spec §4.5).
Returns the pool after the callback, the waiter callbacks in FIFO
registration order, and the number of `setRoutingData` invocations.

* Failure path: remove the entry, then fail every waiter.
* `setRoutingData` throws: the one invocation is counted, the entry is
  removed, every waiter fails.
* Success: `setRoutingData` runs once, a fresh handler is allocated, the
  entry becomes Ready, waiters are fulfilled FIFO (each may subscribe,
  `subscribes`), and the post-fulfilment sweep evicts a Ready entry whose
  handler has zero subscribers. -/
def connectComplete (p : Pool K) (k : K) (oc : ConnectOutcome)
    (subscribes : Nat → Bool) : Pool K × List CallbackRecord × Nat :=
  match p.entries k with
  | some (.connecting ws) =>
      match oc with
      | .failed =>
          let p' := removeEntry p k
          (p', ws.map fun w => ⟨w, .errored, isBroadcasting p' k⟩, 0)
      | .succeeded true =>
          let p' := removeEntry p k
          (p', ws.map fun w => ⟨w, .errored, isBroadcasting p' k⟩, 1)
      | .succeeded false =>
          let h : HandlerId := (p.owner, p.nextId)
          let subs := (ws.filter subscribes).length
          let pReady :=
            { setEntry p k (some (.ready h subs)) with nextId := p.nextId + 1 }
          let records : List CallbackRecord :=
            ws.map fun w => ⟨w, .fulfilled h, isBroadcasting pReady k⟩
          let pFinal := if subs = 0 then removeEntry pReady k else pReady
          (pFinal, records, 1)
  | _ => (p, [], 0)

/-- The two-callers-before-the-tick scenario: two `getHandler(K)` calls on
the same Absent key, then the connect completes successfully. -/
def coalesceRun (p : Pool K) (k : K) (w1 w2 : Nat) (subscribes : Nat → Bool) :
    Pool K × List CallbackRecord × Nat :=
  connectComplete (getHandler false (getHandler false p k w1).1 k w2).1 k
    (.succeeded false) subscribes

/-- Modelled from the spec: the BroadcastHandler attached to one upstream
pipeline, holding its identity, its routing key, and the subscriber list
(spec §4.4). -/
structure BHandler (K : Type) where
  id : HandlerId
  key : K
  subscribers : List Nat

/-- An observable action taken by a BroadcastHandler on the pool, on a
subscriber, or on its pipeline. -/
inductive BAction (K : Type) where
  | detachPool (k : K)
  | onNext (s : Nat) (v : Nat)
  | onError (s : Nat)
  | onCompleted (s : Nat)
  | deletePipeline
deriving DecidableEq

/-- Modelled from the spec: `readEOF()` on a BroadcastHandler — "detach
from the pool (so no new subscribers join), invoke `onCompleted` on each
subscriber, then request pipeline deletion" (spec §4.4). -/
def BHandler.readEOF (h : BHandler K) : List (BAction K) :=
  .detachPool h.key :: (h.subscribers.map .onCompleted ++ [.deletePipeline])

/-- Applying the handler's detach-from-pool action to the pool state: the
entry for the handler's key is evicted. -/
def applyDetach (p : Pool K) (k : K) : Pool K :=
  removeEntry p k

/-- A family of thread-local pools indexed by (factory instance × thread). -/
def PoolMap (K : Type) := PoolKey → Pool K

/-- Run a pool operation on the single pool identified by `pk`, leaving
every other thread-local pool alone (spec §4.5 "Thread-local singleton per
(ObservingPipelineFactory instance × I/O thread)"). -/
def applyAt (m : PoolMap K) (pk : PoolKey) (f : Pool K → Pool K) : PoolMap K :=
  fun pk' => if pk' = pk then f (m pk') else m pk'

/-- A concrete empty pool over `Nat` routing keys. -/
def pool0 : Pool Nat := mkPool ⟨0, 0⟩

/-- A concrete pool with a Connecting entry (waiters 1 and 2) at key 7. -/
def poolA : Pool Nat := setEntry (mkPool ⟨0, 0⟩) 7 (some (.connecting [1, 2]))

/-- A concrete pool owned by a different factory instance, with a
Connecting entry (waiter 3) at the same key 7. -/
def poolB : Pool Nat := setEntry (mkPool ⟨1, 0⟩) 7 (some (.connecting [3]))

/-- A concrete BroadcastHandler with two subscribers. -/
def handlerA : BHandler Nat := ⟨(⟨0, 0⟩, 0), 7, [1, 2]⟩

/-- A concrete family of thread-local pools, all empty. -/
def mapA : PoolMap Nat := fun pk => mkPool pk

end Broadcast

namespace Server

/-! Shallow embedding of `wangle/bootstrap/ServerBootstrap-inl.h`. -/

/-- `AcceptorException::ExceptionType` (ServerBootstrap-inl.h lines 28–32). -/
inductive ExceptionType where
  | UNKNOWN
  | TIMED_OUT
  | INTERNAL_ERROR
deriving DecidableEq

/-- `AcceptorException`: a runtime error carrying an `ExceptionType` and a
message (ServerBootstrap-inl.h lines 26–44). -/
structure AcceptorException where
  type : ExceptionType
  message : String
deriving DecidableEq

/-- The single-argument constructor `AcceptorException(type)`, which passes
the empty string to `std::runtime_error`. -/
def AcceptorException.ofType (t : ExceptionType) : AcceptorException :=
  ⟨t, ""⟩

/-- `AcceptorException::getType`. -/
def AcceptorException.getType (e : AcceptorException) : ExceptionType :=
  e.type

/-- An accepted socket: its identity and the local address the kernel
reports for it (used by `transport->getLocalAddress`). -/
structure Socket where
  sockId : Nat
  localAddr : Nat
deriving DecidableEq

/-- `ConnInfo`: the new-connection record `{sock, clientAddr,
nextProtoName, secureTransportType, tinfo}` (ServerBootstrap-inl.h
lines 151–152).  `tinfo` is kept opaque. -/
structure ConnInfo where
  sock : Socket
  clientAddr : Nat
  nextProtoName : String
  secureTransportType : Nat
  tinfo : Nat
deriving DecidableEq

/-- `ConnEvent` (connection added / removed). -/
inductive ConnEvent where
  | CONN_ADDED
  | CONN_REMOVED
deriving DecidableEq

/-- `AcceptPipelineType`: the variant of events an accept pipeline can
carry — a new-connection record, a UDP datagram tuple, a connection
count event, or an accept error. -/
inductive AcceptPipelineType where
  | connInfo (ci : ConnInfo)
  | datagram (buf : Nat) (socket : Nat) (addr : Nat)
  | connEvent (e : ConnEvent)
  | acceptError (msg : String)
deriving DecidableEq

/-- Whether the variant currently holds a `ConnInfo` — the embedding of the
dynamic-type test `conn.type() == typeid(ConnInfo&)`. -/
def AcceptPipelineType.isConnInfo : AcceptPipelineType → Bool
  | .connInfo _ => true
  | _ => false

/-- The `TransportInfo` record as `ServerAcceptor::read` fills it in
(lines 122–128): the copied `connInfo.tinfo` plus local address, remote
address and negotiated protocol. -/
structure TransportInfoRec where
  base : Nat
  localAddr : Option Nat
  remoteAddr : Option Nat
  sslNextProtocol : Option String
deriving DecidableEq

/-- `ServerConnection`: owns one child pipeline and manages its lifetime
(ServerBootstrap-inl.h lines 51–85). -/
structure ServerConnection where
  pipeline : Nat
deriving DecidableEq

/-- State of a `ServerAcceptor` as far as the accept path mutates it: the
tracked connection records and the allocator for fresh child pipelines. -/
structure AcceptorState where
  connections : List ServerConnection
  nextPipelineId : Nat

/-- An observable step taken by `ServerAcceptor::read` on the ConnInfo
path: creating the child pipeline, installing transport info, signalling
`transportActive`, and registering the connection record. -/
inductive ReadEffect where
  | childPipelineCreated (pid : Nat)
  | setTransportInfo (pid : Nat) (ti : TransportInfoRec)
  | transportActive (pid : Nat)
  | connectionAdded (pid : Nat)
deriving DecidableEq

/-- `ServerAcceptor::read` (ServerBootstrap-inl.h lines 113–137).  If the
event's dynamic kind is not `ConnInfo&` the handler returns at once;
otherwise it builds the transport info, asks the child pipeline factory
for a pipeline, installs the info, calls `transportActive()`, wraps the
pipeline in a new `ServerConnection`, and registers it. -/
def acceptorRead (st : AcceptorState) (conn : AcceptPipelineType) :
    AcceptorState × List ReadEffect :=
  match conn with
  | .connInfo ci =>
      let ti : TransportInfoRec :=
        { base := ci.tinfo
          localAddr := some ci.sock.localAddr
          remoteAddr := some ci.clientAddr
          sslNextProtocol := some ci.nextProtoName }
      let pid := st.nextPipelineId
      let c : ServerConnection := ⟨pid⟩
      ({ connections := st.connections ++ [c], nextPipelineId := pid + 1 },
       [.childPipelineCreated pid, .setTransportInfo pid ti,
        .transportActive pid, .connectionAdded pid])
  | _ => (st, [])

/-- A call a `ServerConnection` makes into its child pipeline. -/
inductive PipelineCall where
  | readData (pid : Nat) (v : Nat)
  | readException (pid : Nat) (e : AcceptorException)
  | readEOF (pid : Nat)
  | closeCall (pid : Nat)
deriving DecidableEq

/-- `ServerConnection::timeoutExpired` (lines 61–65): build an
`AcceptorException` with type `TIMED_OUT` and raise it on the pipeline's
read-error channel.  Nothing else is invoked. -/
def timeoutExpired (c : ServerConnection) : List PipelineCall :=
  [.readException c.pipeline (AcceptorException.ofType .TIMED_OUT)]

/-- `ServerConnection::notifyPendingShutdown` (line 71): an empty body. -/
def notifyPendingShutdown (_c : ServerConnection) : List PipelineCall :=
  []

/-- `ServerConnection::closeWhenIdle` (line 72): an empty body. -/
def closeWhenIdle (_c : ServerConnection) : List PipelineCall :=
  []

/-- `ServerConnection::dropConnection` (lines 73–75): `delete this` — the
connection object (and with it the owned pipeline) is destroyed. -/
def dropConnection (_c : ServerConnection) : Bool :=
  true

/-- Outcome of `ServerConnection::deletePipeline`: whether `CHECK`
aborted, and whether the connection and its pipeline were destroyed. -/
structure DeleteOutcome where
  aborted : Bool
  connectionDestroyed : Bool
  pipelineDestroyed : Bool
deriving DecidableEq

/-- `ServerConnection::deletePipeline` (lines 78–81):
`CHECK(p == pipeline_.get()); delete this;`.  When the argument is the
owned pipeline the check passes and `delete this` destroys the connection
together with the pipeline it owns; otherwise the `CHECK` aborts. -/
def deletePipeline (c : ServerConnection) (p : Nat) : DeleteOutcome :=
  if p = c.pipeline then
    { aborted := false, connectionDestroyed := true, pipelineDestroyed := true }
  else
    { aborted := true, connectionDestroyed := false, pipelineDestroyed := false }

/-- A concrete acceptor state with no tracked connections. -/
def acceptorState0 : AcceptorState := ⟨[], 0⟩

/-- A concrete UDP datagram event, whose dynamic kind is not `ConnInfo`. -/
def datagramEvent : AcceptPipelineType := .datagram 0 0 0

/-- A concrete connection owning pipeline 3. -/
def connA : ServerConnection := ⟨3⟩

end Server

section ServerTheorems

open Server

/-- **C7**: for every accept event delivered to the terminal inbound
handler of the default accept pipeline, if the event's dynamic kind is not
a new-connection record (`ConnInfo`) — for example a datagram — `read`
returns without constructing a child pipeline, registering a connection,
or producing any other observable effect: the acceptor state is unchanged
and the effect list is empty. -/
theorem serverAcceptor_read_drops_unrecognized (st : AcceptorState)
    (conn : AcceptPipelineType) (h : conn.isConnInfo = false) :
    acceptorRead st conn = (st, []) := by
  cases conn with
  | connInfo ci => simp [AcceptPipelineType.isConnInfo] at h
  | datagram buf s a => rfl
  | connEvent e => rfl
  | acceptError m => rfl

/-- Witness for C7: a concrete datagram event on a concrete acceptor
state is dropped without effect. -/
theorem serverAcceptor_read_drops_unrecognized_witness :
    acceptorRead acceptorState0 datagramEvent = (acceptorState0, []) :=
  serverAcceptor_read_drops_unrecognized acceptorState0 datagramEvent rfl

/-- **C8**: when a live connection's idle deadline expires,
`ServerConnection::timeoutExpired` raises exactly one call into the child
pipeline: a `readException` carrying an `AcceptorException` of type
`TIMED_OUT`; no other channel of the pipeline is invoked. -/
theorem serverConnection_timeout_raises_timedOut (c : ServerConnection) :
    timeoutExpired c =
      [.readException c.pipeline (AcceptorException.ofType .TIMED_OUT)] ∧
    ∀ call ∈ timeoutExpired c,
      call = .readException c.pipeline (AcceptorException.ofType .TIMED_OUT) := by
  refine ⟨rfl, ?_⟩
  intro call hc
  simp [timeoutExpired] at hc
  exact hc

/-- Witness for C8: the timeout call list of a concrete connection. -/
theorem serverConnection_timeout_raises_timedOut_witness :
    timeoutExpired connA =
      [.readException connA.pipeline (AcceptorException.ofType .TIMED_OUT)] ∧
    ∀ call ∈ timeoutExpired connA,
      call = .readException connA.pipeline (AcceptorException.ofType .TIMED_OUT) :=
  serverConnection_timeout_raises_timedOut connA

/-- **C9, counterexample**: the claim says `notifyPendingShutdown` and
`closeWhenIdle` have the draining effects the pipeline shutdown contract
requires before any forceful drop; but on a concrete connection both
bodies make no call into the pipeline at all (they are empty), so neither
has any draining effect. -/
theorem serverConnection_drain_noop_counterexample :
    notifyPendingShutdown connA = [] ∧ closeWhenIdle connA = [] :=
  ⟨rfl, rfl⟩

/-- **C9, amended**: on the shutdown path, `ServerConnection`'s
`notifyPendingShutdown` and `closeWhenIdle` are no-ops that make no call
into the pipeline — graceful draining is not implemented at the
connection — and only the forceful `dropConnection` has an effect,
destroying the connection outright. -/
theorem serverConnection_drain_noop (c : ServerConnection) :
    notifyPendingShutdown c = [] ∧ closeWhenIdle c = [] ∧
    dropConnection c = true :=
  ⟨rfl, rfl, rfl⟩

/-- **C10**: `deletePipeline(p)` has the precondition that `p` is the
pipeline owned by the connection; under it the `CHECK` never fires and the
call destroys the connection together with its pipeline, while for any
other argument the `CHECK` (program abort) branch is reached. -/
theorem serverConnection_deletePipeline_check (c : ServerConnection) (p : Nat)
    (h : p = c.pipeline) :
    deletePipeline c p =
      { aborted := false, connectionDestroyed := true,
        pipelineDestroyed := true } ∧
    ∀ q, q ≠ c.pipeline → (deletePipeline c q).aborted = true := by
  constructor
  · simp [deletePipeline, h]
  · intro q hq
    simp [deletePipeline, hq]

/-- Witness for C10: deleting the owned pipeline 3 of a concrete
connection destroys the connection and never aborts; any other pipeline
id reaches the abort branch. -/
theorem serverConnection_deletePipeline_check_witness :
    deletePipeline connA 3 =
      { aborted := false, connectionDestroyed := true,
        pipelineDestroyed := true } ∧
    ∀ q, q ≠ connA.pipeline → (deletePipeline connA q).aborted = true :=
  serverConnection_deletePipeline_check connA 3 rfl

end ServerTheorems

section BroadcastTheorems

open Broadcast

variable {K : Type} [DecidableEq K]

theorem setEntry_self (p : Pool K) (k : K) (e : Option Entry) :
    (setEntry p k e).entries k = e := by
  simp [setEntry]

theorem removeEntry_self (p : Pool K) (k : K) :
    (removeEntry p k).entries k = none := by
  simp [removeEntry, setEntry]

theorem isBroadcasting_removeEntry (p : Pool K) (k : K) :
    isBroadcasting (removeEntry p k) k = false := by
  simp [isBroadcasting, removeEntry, setEntry]

theorem getHandler_absent (syncFail : Bool) (p : Pool K) (k : K) (w : Nat)
    (h : p.entries k = none) :
    getHandler syncFail p k w =
      if syncFail then
        (removeEntry (setEntry p k (some (.connecting [w]))) k, .inlineError)
      else
        (setEntry p k (some (.connecting [w])), .queued) := by
  unfold getHandler
  rw [h]

theorem getHandler_connecting (syncFail : Bool) (p : Pool K) (k : K)
    (w : Nat) (ws : List Nat) (h : p.entries k = some (.connecting ws)) :
    getHandler syncFail p k w =
      (setEntry p k (some (.connecting (ws ++ [w]))), .queued) := by
  unfold getHandler
  rw [h]

theorem connectComplete_fail (p : Pool K) (k : K) (ws : List Nat)
    (f : Nat → Bool) (h : p.entries k = some (.connecting ws)) :
    connectComplete p k .failed f =
      (removeEntry p k, ws.map fun w => ⟨w, .errored, false⟩, 0) := by
  unfold connectComplete
  rw [h]
  simp [isBroadcasting_removeEntry]

theorem connectComplete_routingThrow (p : Pool K) (k : K) (ws : List Nat)
    (f : Nat → Bool) (h : p.entries k = some (.connecting ws)) :
    connectComplete p k (.succeeded true) f =
      (removeEntry p k, ws.map fun w => ⟨w, .errored, false⟩, 1) := by
  unfold connectComplete
  rw [h]
  simp [isBroadcasting_removeEntry]

theorem connectComplete_ok_records (p : Pool K) (k : K) (ws : List Nat)
    (f : Nat → Bool) (h : p.entries k = some (.connecting ws)) :
    (connectComplete p k (.succeeded false) f).2.1 =
      ws.map fun w => ⟨w, .fulfilled (p.owner, p.nextId), true⟩ := by
  unfold connectComplete
  rw [h]
  simp [isBroadcasting, setEntry]

theorem connectComplete_ok_count (p : Pool K) (k : K) (ws : List Nat)
    (f : Nat → Bool) (h : p.entries k = some (.connecting ws)) :
    (connectComplete p k (.succeeded false) f).2.2 = 1 := by
  unfold connectComplete
  rw [h]

theorem connectComplete_ok_pool_orphan (p : Pool K) (k : K) (ws : List Nat)
    (f : Nat → Bool) (h : p.entries k = some (.connecting ws))
    (hz : (ws.filter f).length = 0) :
    (connectComplete p k (.succeeded false) f).1.entries k = none := by
  unfold connectComplete
  rw [h]
  simp only [hz, if_pos]
  simp [removeEntry, setEntry]

theorem connectComplete_ok_pool_kept (p : Pool K) (k : K) (ws : List Nat)
    (f : Nat → Bool) (h : p.entries k = some (.connecting ws))
    (hz : (ws.filter f).length ≠ 0) :
    (connectComplete p k (.succeeded false) f).1.entries k =
      some (.ready (p.owner, p.nextId) (ws.filter f).length) := by
  unfold connectComplete
  rw [h]
  simp only [hz, if_neg]
  simp [setEntry]

theorem filter_waiter_length (g : Nat → CallbackRecord)
    (hg : ∀ w, (g w).waiter = w) (ws : List Nat) (w' : Nat) :
    ((ws.map g).filter (fun r => r.waiter == w')).length = ws.count w' := by
  induction ws with
  | nil => rfl
  | cons a t ih =>
      by_cases hw : a = w'
      · subst hw
        simp [List.filter_cons, hg, List.count_cons, ih]
      · simp [List.filter_cons, hg, List.count_cons, hw, Ne.symm hw, ih]

/-- **C1**: two `getHandler(K)` calls on the same thread between a first
miss (entry Absent, connect started) and the completion of that connect
are both queued on the single Connecting entry; when the connect
completes, `setRoutingData` is invoked exactly once and both futures
resolve to the same BroadcastHandler pointer. -/
theorem broadcastPool_coalesce (p : Pool K) (k : K) (w1 w2 : Nat)
    (f : Nat → Bool) (hAbsent : p.entries k = none) :
    (getHandler false p k w1).2 = GetResult.queued ∧
    (getHandler false (getHandler false p k w1).1 k w2).2 =
      GetResult.queued ∧
    (coalesceRun p k w1 w2 f).2.2 = 1 ∧
    ∃ h, (coalesceRun p k w1 w2 f).2.1.map (fun r => (r.waiter, r.result)) =
        [(w1, WaiterResult.fulfilled h), (w2, WaiterResult.fulfilled h)] := by
  have h1 := getHandler_absent false p k w1 hAbsent
  simp only [Bool.false_eq_true, if_false] at h1
  have e1 : (getHandler false p k w1).1.entries k =
      some (.connecting [w1]) := by
    rw [h1]; exact setEntry_self ..
  have h2 := getHandler_connecting false (getHandler false p k w1).1 k w2
    [w1] e1
  have e2 : (getHandler false (getHandler false p k w1).1 k w2).1.entries k =
      some (.connecting [w1, w2]) := by
    rw [h2]; exact setEntry_self ..
  refine ⟨by rw [h1], by rw [h2], ?_, ?_⟩
  · unfold coalesceRun
    exact connectComplete_ok_count _ k [w1, w2] f e2
  · refine ⟨((getHandler false (getHandler false p k w1).1 k w2).1.owner,
      (getHandler false (getHandler false p k w1).1 k w2).1.nextId), ?_⟩
    unfold coalesceRun
    rw [connectComplete_ok_records _ k [w1, w2] f e2]
    simp

/-- Witness for C1: two concrete waiters on key 5 of the empty pool both
resolve to the same handler, with one `setRoutingData` invocation. -/
theorem broadcastPool_coalesce_witness :
    (getHandler false pool0 5 1).2 = GetResult.queued ∧
    (getHandler false (getHandler false pool0 5 1).1 5 2).2 =
      GetResult.queued ∧
    (coalesceRun pool0 5 1 2 (fun _ => true)).2.2 = 1 ∧
    ∃ h, (coalesceRun pool0 5 1 2 (fun _ => true)).2.1.map
        (fun r => (r.waiter, r.result)) =
        [(1, WaiterResult.fulfilled h), (2, WaiterResult.fulfilled h)] :=
  broadcastPool_coalesce pool0 5 1 2 (fun _ => true) rfl

/-- **C2**: if the connect fails, or `setRoutingData` throws in the
connect-completion callback, then every waiter registered on the
Connecting entry observes the error, `isBroadcasting(K)` is false by the
time any waiter's error callback runs, and the entry ends Absent — the
pool does not retry the connect. -/
theorem broadcastPool_failure_fanout (p : Pool K) (k : K) (ws : List Nat)
    (oc : ConnectOutcome) (f : Nat → Bool)
    (hConn : p.entries k = some (.connecting ws))
    (hFail : oc = .failed ∨ oc = .succeeded true) :
    (∀ w' ∈ ws, (⟨w', .errored, false⟩ : CallbackRecord) ∈
        (connectComplete p k oc f).2.1) ∧
    (∀ r ∈ (connectComplete p k oc f).2.1,
        r.result = .errored ∧ r.broadcastingAtCallback = false) ∧
    isBroadcasting (connectComplete p k oc f).1 k = false ∧
    (connectComplete p k oc f).1.entries k = none := by
  have hmain : (connectComplete p k oc f).1 = removeEntry p k ∧
      (connectComplete p k oc f).2.1 =
        ws.map fun w => ⟨w, .errored, false⟩ := by
    rcases hFail with h | h <;> subst h
    · rw [connectComplete_fail p k ws f hConn]; exact ⟨rfl, rfl⟩
    · rw [connectComplete_routingThrow p k ws f hConn]; exact ⟨rfl, rfl⟩
  obtain ⟨hpool, hrec⟩ := hmain
  refine ⟨?_, ?_, ?_, ?_⟩
  · intro w' hw
    rw [hrec]
    exact List.mem_map_of_mem _ hw
  · intro r hr
    rw [hrec] at hr
    simp only [List.mem_map] at hr
    obtain ⟨w, _, rfl⟩ := hr
    exact ⟨rfl, rfl⟩
  · rw [hpool]; exact isBroadcasting_removeEntry p k
  · rw [hpool]; exact removeEntry_self p k

/-- Witness for C2: a failed connect on a concrete pool with two queued
waiters fails both with the entry already evicted. -/
theorem broadcastPool_failure_fanout_witness :
    (∀ w' ∈ [1, 2], (⟨w', .errored, false⟩ : CallbackRecord) ∈
        (connectComplete poolA 7 .failed (fun _ => false)).2.1) ∧
    (∀ r ∈ (connectComplete poolA 7 .failed (fun _ => false)).2.1,
        r.result = .errored ∧ r.broadcastingAtCallback = false) ∧
    isBroadcasting (connectComplete poolA 7 .failed (fun _ => false)).1 7 =
      false ∧
    (connectComplete poolA 7 .failed (fun _ => false)).1.entries 7 = none :=
  broadcastPool_failure_fanout poolA 7 [1, 2] .failed (fun _ => false) rfl
    (Or.inl rfl)

/-- **C3**: if the Server Pool fails synchronously when `getHandler(K)`
starts a connect, the just-inserted entry is removed, the caller's promise
is completed with the error inline, and `isBroadcasting(K)` is false;
and in all cases a queued waiter is resolved exactly once by the
connect-completion callback. -/
theorem broadcastPool_syncFail_inline (p : Pool K) (k : K) (w : Nat)
    (hAbsent : p.entries k = none) :
    (getHandler true p k w).2 = GetResult.inlineError ∧
    (getHandler true p k w).1.entries k = none ∧
    isBroadcasting (getHandler true p k w).1 k = false ∧
    (∀ (q : Pool K) (ws : List Nat) (oc : ConnectOutcome) (g : Nat → Bool)
        (w' : Nat), q.entries k = some (.connecting ws) → ws.Nodup →
        w' ∈ ws →
        ((connectComplete q k oc g).2.1.filter
            (fun r => r.waiter == w')).length = 1) := by
  have h1 := getHandler_absent true p k w hAbsent
  simp only [if_true] at h1
  refine ⟨by rw [h1], ?_, ?_, ?_⟩
  · rw [h1]; exact removeEntry_self ..
  · rw [h1]; exact isBroadcasting_removeEntry ..
  · intro q ws oc g w' hq hnd hmem
    have hcount : ws.count w' = 1 := List.count_eq_one_of_mem hnd hmem
    cases oc with
    | failed =>
        rw [connectComplete_fail q k ws g hq]
        rw [filter_waiter_length _ (fun _ => rfl) ws w']
        exact hcount
    | succeeded rt =>
        cases rt with
        | true =>
            rw [connectComplete_routingThrow q k ws g hq]
            rw [filter_waiter_length _ (fun _ => rfl) ws w']
            exact hcount
        | false =>
            rw [connectComplete_ok_records q k ws g hq]
            rw [filter_waiter_length _ (fun _ => rfl) ws w']
            exact hcount

/-- Witness for C3: an inline Server Pool failure on key 5 of the empty
pool resolves the caller with an error, leaving no entry behind. -/
theorem broadcastPool_syncFail_inline_witness :
    (getHandler true pool0 5 1).2 = GetResult.inlineError ∧
    (getHandler true pool0 5 1).1.entries 5 = none ∧
    isBroadcasting (getHandler true pool0 5 1).1 5 = false ∧
    (∀ (q : Pool Nat) (ws : List Nat) (oc : ConnectOutcome) (g : Nat → Bool)
        (w' : Nat), q.entries 5 = some (.connecting ws) → ws.Nodup →
        w' ∈ ws →
        ((connectComplete q 5 oc g).2.1.filter
            (fun r => r.waiter == w')).length = 1) :=
  broadcastPool_syncFail_inline pool0 5 1 rfl

/-- **C4**: after a successful connect resolves and all waiters are
fulfilled, if no waiter subscribed the post-fulfilment sweep evicts the
entry and `isBroadcasting(K)` becomes false; if at least one waiter
subscribed, the entry remains Ready and `isBroadcasting(K)` stays true. -/
theorem broadcastPool_orphan_sweep (p : Pool K) (k : K) (ws : List Nat)
    (f : Nat → Bool) (hConn : p.entries k = some (.connecting ws)) :
    ((ws.filter f).length = 0 →
        isBroadcasting (connectComplete p k (.succeeded false) f).1 k =
          false) ∧
    ((ws.filter f).length ≠ 0 →
        isBroadcasting (connectComplete p k (.succeeded false) f).1 k =
          true ∧
        (connectComplete p k (.succeeded false) f).1.entries k =
          some (.ready (p.owner, p.nextId) (ws.filter f).length)) := by
  constructor
  · intro hz
    have hp := connectComplete_ok_pool_orphan p k ws f hConn hz
    simp [isBroadcasting, hp]
  · intro hz
    have hp := connectComplete_ok_pool_kept p k ws f hConn hz
    exact ⟨by simp [isBroadcasting, hp], hp⟩

/-- Witness for C4: with two queued waiters on a concrete pool, the sweep
branches are as the theorem states (here neither waiter subscribes, so
the zero-subscriber branch applies). -/
theorem broadcastPool_orphan_sweep_witness :
    (([1, 2].filter (fun _ => false)).length = 0 →
        isBroadcasting
          (connectComplete poolA 7 (.succeeded false) (fun _ => false)).1 7 =
          false) ∧
    (([1, 2].filter (fun _ => false)).length ≠ 0 →
        isBroadcasting
          (connectComplete poolA 7 (.succeeded false) (fun _ => false)).1 7 =
          true ∧
        (connectComplete poolA 7 (.succeeded false) (fun _ => false)).1.entries
            7 =
          some (.ready (poolA.owner, poolA.nextId)
            ([1, 2].filter (fun _ => false)).length)) :=
  broadcastPool_orphan_sweep poolA 7 [1, 2] (fun _ => false) rfl

theorem filter_onCompleted_length (subs : List Nat) (s : Nat) :
    ((subs.map (BAction.onCompleted (K := K))).filter
        (fun a => a == BAction.onCompleted s)).length = subs.count s := by
  induction subs with
  | nil => rfl
  | cons a t ih =>
      by_cases hs : a = s
      · subst hs
        simp [List.filter_cons, List.count_cons, ih]
      · simp [List.filter_cons, List.count_cons, hs, Ne.symm hs, ih]

/-- **C5**: on upstream `readEOF`, every subscriber currently registered
on the BroadcastHandler observes exactly one `onCompleted` callback, the
handler first detaches its entry from the pool (so `isBroadcasting(K)`
becomes false), and pipeline deletion is requested last. -/
theorem broadcastHandler_readEOF_completes (h : BHandler K) (p : Pool K)
    (hnd : h.subscribers.Nodup) :
    (∀ s ∈ h.subscribers,
        (h.readEOF.filter (fun a => a == BAction.onCompleted s)).length =
          1) ∧
    h.readEOF.head? = some (.detachPool h.key) ∧
    h.readEOF.getLast? = some .deletePipeline ∧
    isBroadcasting (applyDetach p h.key) h.key = false := by
  refine ⟨?_, rfl, ?_, ?_⟩
  · intro s hs
    have hcount := filter_onCompleted_length (K := K) h.subscribers s
    have hone : h.subscribers.count s = 1 := List.count_eq_one_of_mem hnd hs
    simp [BHandler.readEOF, List.filter_cons, List.filter_append, hcount,
      hone]
  · show (BAction.detachPool h.key ::
        (h.subscribers.map .onCompleted ++ [.deletePipeline])).getLast? =
      some .deletePipeline
    rw [show BAction.detachPool h.key ::
        (h.subscribers.map .onCompleted ++ [BAction.deletePipeline]) =
        (BAction.detachPool h.key :: h.subscribers.map .onCompleted) ++
          [BAction.deletePipeline] from rfl]
    exact List.getLast?_concat _
  · exact isBroadcasting_removeEntry p h.key

/-- Witness for C5: a concrete handler with subscribers 1 and 2 delivers
exactly one `onCompleted` to each, detaches first, and deletes last. -/
theorem broadcastHandler_readEOF_completes_witness :
    (∀ s ∈ handlerA.subscribers,
        (handlerA.readEOF.filter
            (fun a => a == BAction.onCompleted s)).length = 1) ∧
    handlerA.readEOF.head? = some (.detachPool handlerA.key) ∧
    handlerA.readEOF.getLast? = some .deletePipeline ∧
    isBroadcasting (applyDetach poolA handlerA.key) handlerA.key = false :=
  broadcastHandler_readEOF_completes handlerA poolA (by decide)

/-- **C6**: pools are isolated per (factory instance × I/O thread): any
operation on one pool leaves every other pool untouched (so establishing
or tearing down a broadcast for K elsewhere changes nothing here), and
successful connects completed by pools with distinct owners always hand
out distinct handler pointers. -/
theorem broadcastPool_isolation (m : PoolMap K) (pk1 pk2 : PoolKey)
    (f : Pool K → Pool K) (p1 p2 : Pool K) (k : K) (ws1 ws2 : List Nat)
    (g1 g2 : Nat → Bool) (hpk : pk2 ≠ pk1) (hown : p1.owner ≠ p2.owner)
    (h1 : p1.entries k = some (.connecting ws1))
    (h2 : p2.entries k = some (.connecting ws2)) :
    applyAt m pk1 f pk2 = m pk2 ∧
    (∀ k', isBroadcasting (applyAt m pk1 f pk2) k' =
        isBroadcasting (m pk2) k') ∧
    (∀ r1 ∈ (connectComplete p1 k (.succeeded false) g1).2.1,
     ∀ r2 ∈ (connectComplete p2 k (.succeeded false) g2).2.1,
     ∀ ha hb, r1.result = .fulfilled ha → r2.result = .fulfilled hb →
        ha ≠ hb) := by
  have happ : applyAt m pk1 f pk2 = m pk2 := by
    unfold applyAt
    rw [if_neg hpk]
  refine ⟨happ, fun k' => by rw [happ], ?_⟩
  intro r1 hr1 r2 hr2 ha hb hra hrb
  rw [connectComplete_ok_records p1 k ws1 g1 h1] at hr1
  rw [connectComplete_ok_records p2 k ws2 g2 h2] at hr2
  simp only [List.mem_map] at hr1 hr2
  obtain ⟨u1, _, rfl⟩ := hr1
  obtain ⟨u2, _, rfl⟩ := hr2
  simp only [WaiterResult.fulfilled.injEq] at hra hrb
  intro hcontra
  apply hown
  have : ha.1 = hb.1 := by rw [hcontra]
  rw [← hra, ← hrb] at this
  exact this

/-- Witness for C6: the identity operation applied at pool key (0,0)
leaves the pool at (0,1) untouched, and two concrete pools with distinct
owners hand out distinct handlers. -/
theorem broadcastPool_isolation_witness :
    applyAt mapA ⟨0, 0⟩ id ⟨0, 1⟩ = mapA ⟨0, 1⟩ ∧
    (∀ k', isBroadcasting (applyAt mapA ⟨0, 0⟩ id ⟨0, 1⟩) k' =
        isBroadcasting (mapA ⟨0, 1⟩) k') ∧
    (∀ r1 ∈ (connectComplete poolA 7 (.succeeded false) (fun _ => true)).2.1,
     ∀ r2 ∈ (connectComplete poolB 7 (.succeeded false) (fun _ => true)).2.1,
     ∀ ha hb, r1.result = .fulfilled ha → r2.result = .fulfilled hb →
        ha ≠ hb) :=
  broadcastPool_isolation mapA ⟨0, 0⟩ ⟨0, 1⟩ id poolA poolB 7 [1, 2] [3]
    (fun _ => true) (fun _ => true) (by decide) (by decide) rfl rfl

end BroadcastTheorems
